import Mathlib

/-
Shallow embedding of the resonance-fit engine of
src/figures/generate_figures.py: the model function
stochastic_resonance_model and the fit-and-derive block of
fig2_stochastic_resonance (the try/except around curve_fit, the R^2
computation, the analytic optimum, and the fallback policy).

Modelling choices:
- Real numbers are embedded as ℚ (exact arithmetic).
- np.exp and np.sqrt are foreign numerical routines; they enter the
  embedding as explicit function parameters rexp / rsqrt.
- scipy.optimize.curve_fit is an external minimization routine that
  either returns (popt, pcov) or raises; it is a parameter of type
  CurveFit returning Except.
- Python exceptions are the opaque type PyErr; a function that may
  raise returns Except PyErr.
-/

/-- A Python exception value, kept opaque: the bare `except:` in the
source discards it, so only its presence matters. -/
inductive PyErr where
  | valueError
  | typeError
  | runtimeError
  deriving DecidableEq

/-- The record produced by the fit block of fig2_stochastic_resonance:
fitted parameters a, b, c, the goodness of fit r_squared, the optimum
location epsilon_opt and the optimum value phi_opt. -/
structure FitResult where
  a : ℚ
  b : ℚ
  c : ℚ
  r_squared : ℚ
  epsilon_opt : ℚ
  phi_opt : ℚ
  deriving DecidableEq

/-- stochastic_resonance_model (generate_figures.py line 52):
`a * epsilon * np.exp(-b * epsilon**2) + c`, with np.exp abstracted as
the parameter rexp. -/
def stochastic_resonance_model (rexp : ℚ → ℚ) (epsilon a b c : ℚ) : ℚ :=
  a * epsilon * rexp (-b * epsilon ^ 2) + c

/-- The type of the external minimization routine
scipy.optimize.curve_fit, as invoked at line 118: it receives the model
function, the x data, the y data, the initial guess p0 and the
evaluation cap maxfev, and either returns (popt, pcov) or raises. -/
def CurveFit : Type :=
  (ℚ → ℚ → ℚ → ℚ → ℚ) → List ℚ → List ℚ → ℚ × ℚ × ℚ → ℕ →
    Except PyErr ((ℚ × ℚ × ℚ) × List (List ℚ))

/-- The body of the `try:` block at lines 117-128 of
generate_figures.py: call curve_fit with p0=[0.02, 0.02, 0.0] and
maxfev=5000, compute residuals, ss_res, ss_tot, r_squared, the analytic
optimum location (sqrt(1/(2*b)) if b > 0 else 5.0) and the model value
there. It raises exactly when the curve_fit call raises. -/
def fig2_tryBody (cf : CurveFit) (rexp rsqrt : ℚ → ℚ)
    (noise phi_max : List ℚ) : Except PyErr FitResult :=
  match cf (stochastic_resonance_model rexp) noise phi_max (0.02, 0.02, 0.0) 5000 with
  | .error e => .error e
  | .ok ((a, b, c), _pcov) =>
    let residuals :=
      List.zipWith (fun x y => y - stochastic_resonance_model rexp x a b c) noise phi_max
    let ss_res := (residuals.map (fun r => r ^ 2)).sum
    let mean_phi := phi_max.sum / (phi_max.length : ℚ)
    let ss_tot := (phi_max.map (fun y => (y - mean_phi) ^ 2)).sum
    let r_squared := 1 - ss_res / ss_tot
    let epsilon_opt := if 0 < b then rsqrt (1 / (2 * b)) else 5.0
    let phi_opt := stochastic_resonance_model rexp epsilon_opt a b c
    .ok ⟨a, b, c, r_squared, epsilon_opt, phi_opt⟩

/-- The whole fit-and-derive computation at lines 117-134: the `try:`
body guarded by the bare `except:` at line 130, which substitutes
a, b, c = 0.02, 0.02, 0.0, r_squared = 0, epsilon_opt = 5.0 and
phi_opt = max(phi_max). Python's max raises ValueError on an empty
sequence, so the fallback itself is fallible. -/
def fig2_fit (cf : CurveFit) (rexp rsqrt : ℚ → ℚ)
    (noise phi_max : List ℚ) : Except PyErr FitResult :=
  match fig2_tryBody cf rexp rsqrt noise phi_max with
  | .ok r => .ok r
  | .error _ =>
    match phi_max.max? with
    | none => .error PyErr.valueError
    | some m => .ok ⟨0.02, 0.02, 0.0, 0, 5.0, m⟩

/-- C5: the model function used by the engine computes exactly
f(x; a, b, c) = a·x·exp(−b·x²) + c, for every x, a, b, c and every
exponential routine. -/
theorem stochastic_resonance_model_spec (rexp : ℚ → ℚ) (x a b c : ℚ) :
    stochastic_resonance_model rexp x a b c = a * x * rexp (-(b * x ^ 2)) + c := by
  unfold stochastic_resonance_model
  rw [neg_mul]

/-- C1: for every non-empty observation set, fig2_fit returns a fully
populated FitResult (it is Except.ok) whatever the external
minimization does, including when it raises. -/
theorem fig2_fit_total (cf : CurveFit) (rexp rsqrt : ℚ → ℚ)
    (noise phi_max : List ℚ) (hlen : noise.length = phi_max.length)
    (hne : phi_max ≠ []) :
    ∃ r : FitResult, fig2_fit cf rexp rsqrt noise phi_max = .ok r := by
  match phi_max, hne with
  | y :: ys, _ =>
    unfold fig2_fit
    cases h : fig2_tryBody cf rexp rsqrt noise (y :: ys) with
    | ok r => exact ⟨r, rfl⟩
    | error e => exact ⟨_, rfl⟩

/-- C1 witness: on the concrete observation set x=[1,2], y=[3,4] with a
minimization that raises, fig2_fit still returns a result. -/
theorem fig2_fit_total_witness :
    ∃ r : FitResult,
      fig2_fit (fun _ _ _ _ _ => .error PyErr.runtimeError) id id [1, 2] [3, 4] = .ok r :=
  fig2_fit_total (fun _ _ _ _ _ => .error PyErr.runtimeError) id id [1, 2] [3, 4]
    (by decide) (by decide)

/-- Summing squared values over a zipWith equals summing over pairs of
the zip: used to relate the embedded residual computation to the
specification formula written over observation pairs. -/
theorem sum_sq_zipWith (f : ℚ → ℚ → ℚ) (xs ys : List ℚ) :
    ((List.zipWith f xs ys).map (fun r => r ^ 2)).sum
      = ((xs.zip ys).map (fun p => f p.1 p.2 ^ 2)).sum := by
  induction xs generalizing ys with
  | nil => rfl
  | cons x xs ih =>
    cases ys with
    | nil => rfl
    | cons y ys => simp [ih]

/-- C2: whenever the minimization raises, fig2_fit returns exactly the
deterministic fallback: parameters equal to the initial guess
(0.02, 0.02, 0.0), R² = 0, optimum location 5.0 and optimum value the
maximum observed y. -/
theorem fig2_fit_error_fallback (cf : CurveFit) (rexp rsqrt : ℚ → ℚ)
    (noise phi_max : List ℚ) (e : PyErr) (m : ℚ)
    (hcf : cf (stochastic_resonance_model rexp) noise phi_max (0.02, 0.02, 0.0) 5000
      = .error e)
    (hm : phi_max.max? = some m) :
    fig2_fit cf rexp rsqrt noise phi_max = .ok ⟨0.02, 0.02, 0.0, 0, 5.0, m⟩ := by
  unfold fig2_fit fig2_tryBody
  rw [hcf, hm]

/-- C2 witness: a minimization that raises on x=[1,2], y=[3,4] yields
the fallback result with max y = 4. -/
theorem fig2_fit_error_fallback_witness :
    fig2_fit (fun _ _ _ _ _ => .error PyErr.runtimeError) id id [1, 2] [3, 4]
      = .ok ⟨0.02, 0.02, 0.0, 0, 5.0, 4⟩ :=
  fig2_fit_error_fallback (fun _ _ _ _ _ => .error PyErr.runtimeError) id id
    [1, 2] [3, 4] PyErr.runtimeError 4 rfl (by decide)

/-- C3: for every successful fit with b̂ > 0, the returned optimum
location is sqrt(1/(2·b̂)) and the returned optimum value is the model
evaluated at that location with the fitted parameters. -/
theorem fig2_fit_optimum_b_pos (cf : CurveFit) (rexp rsqrt : ℚ → ℚ)
    (noise phi_max : List ℚ) (a b c : ℚ) (pcov : List (List ℚ))
    (hcf : cf (stochastic_resonance_model rexp) noise phi_max (0.02, 0.02, 0.0) 5000
      = .ok ((a, b, c), pcov))
    (hb : 0 < b) :
    ∃ r : FitResult, fig2_fit cf rexp rsqrt noise phi_max = .ok r ∧
      r.epsilon_opt = rsqrt (1 / (2 * b)) ∧
      r.phi_opt = stochastic_resonance_model rexp (rsqrt (1 / (2 * b))) a b c := by
  unfold fig2_fit fig2_tryBody
  rw [hcf]
  simp only [if_pos hb]
  exact ⟨_, rfl, rfl, rfl⟩

/-- C3 witness: a successful fit returning (a,b,c)=(1, 1/2, 0) on
x=[0,1], y=[0,1] with rsqrt = id gives optimum location
id (1/(2·(1/2))) = 1 and optimum value the model there. -/
theorem fig2_fit_optimum_b_pos_witness :
    ∃ r : FitResult,
      fig2_fit (fun _ _ _ _ _ => .ok ((1, 1/2, 0), [])) (fun _ => 1) id [0, 1] [0, 1]
        = .ok r ∧
      r.epsilon_opt = id (1 / (2 * (1/2 : ℚ))) ∧
      r.phi_opt = stochastic_resonance_model (fun _ => 1) (id (1 / (2 * (1/2 : ℚ)))) 1 (1/2) 0 :=
  fig2_fit_optimum_b_pos (fun _ _ _ _ _ => .ok ((1, 1/2, 0), [])) (fun _ => 1) id
    [0, 1] [0, 1] 1 (1/2) 0 [] rfl (by norm_num)

/-- C4: for every successful fit, the returned goodness of fit is
R² = 1 − SS_res/SS_tot with SS_res the sum of squared residuals
y − f(x; â, b̂, ĉ) over the observation pairs and SS_tot the sum of
squared deviations of the y values from their mean. -/
theorem fig2_fit_r_squared (cf : CurveFit) (rexp rsqrt : ℚ → ℚ)
    (noise phi_max : List ℚ) (a b c : ℚ) (pcov : List (List ℚ))
    (hcf : cf (stochastic_resonance_model rexp) noise phi_max (0.02, 0.02, 0.0) 5000
      = .ok ((a, b, c), pcov)) :
    ∃ r : FitResult, fig2_fit cf rexp rsqrt noise phi_max = .ok r ∧
      r.r_squared = 1 -
        ((noise.zip phi_max).map
          (fun p => (p.2 - stochastic_resonance_model rexp p.1 a b c) ^ 2)).sum /
        ((phi_max.map
          (fun y => (y - phi_max.sum / (phi_max.length : ℚ)) ^ 2)).sum) := by
  unfold fig2_fit fig2_tryBody
  rw [hcf]
  refine ⟨_, rfl, ?_⟩
  simp only [sum_sq_zipWith (fun x y => y - stochastic_resonance_model rexp x a b c) noise phi_max]

/-- C4 witness: on x=[0,1], y=[0,1] with a successful fit returning
(1, 1/2, 0), the returned R² equals the specification formula. -/
theorem fig2_fit_r_squared_witness :
    ∃ r : FitResult,
      fig2_fit (fun _ _ _ _ _ => .ok ((1, 1/2, 0), [])) (fun _ => 1) id [0, 1] [0, 1]
        = .ok r ∧
      r.r_squared = 1 -
        (([(0:ℚ), 1].zip [(0:ℚ), 1]).map
          (fun p => (p.2 - stochastic_resonance_model (fun _ => 1) p.1 1 (1/2) 0) ^ 2)).sum /
        (([(0:ℚ), 1].map
          (fun y => (y - [(0:ℚ), 1].sum / (([(0:ℚ), 1].length : ℕ) : ℚ)) ^ 2)).sum) :=
  fig2_fit_r_squared (fun _ _ _ _ _ => .ok ((1, 1/2, 0), [])) (fun _ => 1) id
    [0, 1] [0, 1] 1 (1/2) 0 [] rfl

/-- C6: for every successful fit with b̂ ≤ 0, fig2_fit does not fail
and returns the fixed fallback constant 5.0 as the optimum location. -/
theorem fig2_fit_b_nonpos_location (cf : CurveFit) (rexp rsqrt : ℚ → ℚ)
    (noise phi_max : List ℚ) (a b c : ℚ) (pcov : List (List ℚ))
    (hcf : cf (stochastic_resonance_model rexp) noise phi_max (0.02, 0.02, 0.0) 5000
      = .ok ((a, b, c), pcov))
    (hb : b ≤ 0) :
    ∃ r : FitResult, fig2_fit cf rexp rsqrt noise phi_max = .ok r ∧
      r.epsilon_opt = 5.0 := by
  unfold fig2_fit fig2_tryBody
  rw [hcf]
  simp only [if_neg (not_lt.mpr hb)]
  exact ⟨_, rfl, rfl⟩

/-- C6 witness: a successful fit returning (1, -1, 0) on x=[0,1],
y=[0,1] yields optimum location 5.0. -/
theorem fig2_fit_b_nonpos_location_witness :
    ∃ r : FitResult,
      fig2_fit (fun _ _ _ _ _ => .ok ((1, -1, 0), [])) (fun _ => 1) id [0, 1] [0, 1]
        = .ok r ∧ r.epsilon_opt = 5.0 :=
  fig2_fit_b_nonpos_location (fun _ _ _ _ _ => .ok ((1, -1, 0), [])) (fun _ => 1) id
    [0, 1] [0, 1] 1 (-1) 0 [] rfl (by norm_num)

/-- Folding max over a list whose elements all equal the accumulator
returns the accumulator. -/
theorem foldl_max_const (y0 : ℚ) (l : List ℚ) (h : ∀ y ∈ l, y = y0) :
    l.foldl max y0 = y0 := by
  induction l with
  | nil => rfl
  | cons b bs ih =>
    simp only [List.mem_cons, forall_eq_or_imp] at h
    simp only [List.foldl_cons, h.1, max_self]
    exact ih h.2

/-- The maximum of a non-empty list whose elements are all equal to y0
is y0. -/
theorem max?_const (y0 : ℚ) (l : List ℚ) (hne : l ≠ []) (h : ∀ y ∈ l, y = y0) :
    l.max? = some y0 := by
  match l, hne with
  | b :: bs, _ =>
    simp only [List.mem_cons, forall_eq_or_imp] at h
    rw [List.max?_cons', h.1, foldl_max_const y0 bs h.2]

/-- The always-raising minimization used to exercise the failure guard
on a degenerate (all-identical-y) input. -/
def cfRaise : CurveFit := fun _ _ _ _ _ => .error PyErr.runtimeError

/-- C7 counterexample: on the degenerate input x=[0,1,2],
y=[1/10,1/10,1/10] (all responses identical, SS_tot = 0), a raised
fitting error IS caught by the surrounding guard — the guard wraps the
whole try body — and the documented fallback result IS produced,
contradicting the claim that the error escapes the guard and the
fallback is not produced. -/
theorem fig2_fit_degenerate_not_escaping :
    fig2_fit cfRaise id id [0, 1, 2] [1/10, 1/10, 1/10]
      = .ok ⟨0.02, 0.02, 0.0, 0, 5.0, 1/10⟩ := by
  unfold fig2_fit fig2_tryBody cfRaise
  simp [List.max?_cons', max_self]

/-- C7 amended: for an input whose response values are all identical
(hence SS_tot = 0 and R² undefined), any error raised inside the fit
body — the guard wraps the entire body, including the R² computation —
is caught by the bare except and the documented fallback is returned,
with optimum value the common response value. -/
theorem fig2_fit_degenerate_caught (cf : CurveFit) (rexp rsqrt : ℚ → ℚ)
    (noise phi_max : List ℚ) (y0 : ℚ) (e : PyErr)
    (hne : phi_max ≠ []) (hconst : ∀ y ∈ phi_max, y = y0)
    (hbody : fig2_tryBody cf rexp rsqrt noise phi_max = .error e) :
    fig2_fit cf rexp rsqrt noise phi_max = .ok ⟨0.02, 0.02, 0.0, 0, 5.0, y0⟩ := by
  unfold fig2_fit
  rw [hbody, max?_const y0 phi_max hne hconst]

/-- C7 amended witness: the concrete degenerate input x=[0,1,2],
y=[1/10,1/10,1/10] with a raising minimization produces the documented
fallback. -/
theorem fig2_fit_degenerate_caught_witness :
    fig2_fit cfRaise id id [0, 1, 2] [1/10, 1/10, 1/10]
      = .ok ⟨0.02, 0.02, 0.0, 0, 5.0, 1/10⟩ :=
  fig2_fit_degenerate_caught cfRaise id id [0, 1, 2] [1/10, 1/10, 1/10]
    (1/10) PyErr.runtimeError (by simp) (by simp) rfl

/-- C8: for an empty observation set, fig2_fit does not fabricate a
fallback result: given that the external minimization raises on the
empty input (scipy raises when the data count is below the parameter
count), the failure propagates to the caller — the except-path call of
max on the empty sequence raises ValueError. -/
theorem fig2_fit_empty_raises (cf : CurveFit) (rexp rsqrt : ℚ → ℚ) (e : PyErr)
    (hcf : cf (stochastic_resonance_model rexp) [] [] (0.02, 0.02, 0.0) 5000
      = .error e) :
    fig2_fit cf rexp rsqrt [] [] = .error PyErr.valueError := by
  unfold fig2_fit fig2_tryBody
  rw [hcf]
  rfl

/-- C8 witness: a minimization raising on the empty input makes
fig2_fit raise to its caller. -/
theorem fig2_fit_empty_raises_witness :
    fig2_fit (fun _ _ _ _ _ => .error PyErr.typeError) id id [] []
      = .error PyErr.valueError :=
  fig2_fit_empty_raises (fun _ _ _ _ _ => .error PyErr.typeError) id id
    PyErr.typeError rfl

/-- C9: the minimization is invoked with exactly the documented initial
guess p0 = (0.02, 0.02, 0.0) and the evaluation cap maxfev = 5000:
fig2_fit depends on the external routine only through its value at
those arguments, so two routines agreeing there yield the same
result. -/
theorem fig2_fit_invocation (cf₁ cf₂ : CurveFit) (rexp rsqrt : ℚ → ℚ)
    (noise phi_max : List ℚ)
    (h : cf₁ (stochastic_resonance_model rexp) noise phi_max (0.02, 0.02, 0.0) 5000
       = cf₂ (stochastic_resonance_model rexp) noise phi_max (0.02, 0.02, 0.0) 5000) :
    fig2_fit cf₁ rexp rsqrt noise phi_max = fig2_fit cf₂ rexp rsqrt noise phi_max := by
  unfold fig2_fit fig2_tryBody
  rw [h]

/-- C9 witness: two concrete routines that agree at the documented
arguments (one ignores its guess and cap, one checks them) give equal
results on x=[1,2], y=[3,4]. -/
theorem fig2_fit_invocation_witness :
    fig2_fit (fun _ _ _ _ _ => .ok ((1, 1, 1), [])) id id [1, 2] [3, 4]
      = fig2_fit (fun _ _ _ _ maxfev =>
          if maxfev = 5000 then .ok ((1, 1, 1), [])
          else .error PyErr.runtimeError) id id [1, 2] [3, 4] :=
  fig2_fit_invocation (fun _ _ _ _ _ => .ok ((1, 1, 1), []))
    (fun _ _ _ _ maxfev =>
      if maxfev = 5000 then .ok ((1, 1, 1), [])
      else .error PyErr.runtimeError) id id [1, 2] [3, 4] rfl

/-- A successful minimization returning parameters with b = 0, used to
compare the two fallback paths for C10. -/
def cfOkC10 : CurveFit := fun _ _ _ _ _ => .ok ((1, 0, 0), [])

/-- An always-raising minimization, used as the exception path for
C10. -/
def cfErrC10 : CurveFit := fun _ _ _ _ _ => .error PyErr.runtimeError

/-- C10: when the minimization succeeds with b̂ ≤ 0, the returned
optimum value is the fitted model evaluated at the fallback location,
f(5.0; â, b̂, ĉ), not the maximum observed y used by the exception
path; and on a concrete input the two fallback paths return the same
optimum location 5.0 but different optimum values. -/
theorem fig2_fit_b_nonpos_value :
    (∀ (cf : CurveFit) (rexp rsqrt : ℚ → ℚ) (noise phi_max : List ℚ)
        (a b c : ℚ) (pcov : List (List ℚ)),
      cf (stochastic_resonance_model rexp) noise phi_max (0.02, 0.02, 0.0) 5000
          = .ok ((a, b, c), pcov) →
      b ≤ 0 →
      ∃ r : FitResult, fig2_fit cf rexp rsqrt noise phi_max = .ok r ∧
        r.phi_opt = stochastic_resonance_model rexp 5.0 a b c) ∧
    (∃ r₁ r₂ : FitResult,
      fig2_fit cfOkC10 (fun _ => 1) id [0, 1] [0, 1] = .ok r₁ ∧
      fig2_fit cfErrC10 (fun _ => 1) id [0, 1] [0, 1] = .ok r₂ ∧
      r₁.epsilon_opt = r₂.epsilon_opt ∧ r₁.phi_opt ≠ r₂.phi_opt) := by
  constructor
  · intro cf rexp rsqrt noise phi_max a b c pcov hcf hb
    unfold fig2_fit fig2_tryBody
    rw [hcf]
    simp only [if_neg (not_lt.mpr hb)]
    exact ⟨_, rfl, rfl⟩
  · refine ⟨_, _, rfl, rfl, ?_, ?_⟩
    · norm_num
    · norm_num [stochastic_resonance_model, max_def]

/-- C10 witness: applying the universal part at a concrete successful
fit with b = 0 on x=[0,1], y=[0,1]. -/
theorem fig2_fit_b_nonpos_value_witness :
    ∃ r : FitResult, fig2_fit cfOkC10 (fun _ => 1) id [0, 1] [0, 1] = .ok r ∧
      r.phi_opt = stochastic_resonance_model (fun _ => 1) 5.0 1 0 0 :=
  fig2_fit_b_nonpos_value.1 cfOkC10 (fun _ => 1) id [0, 1] [0, 1]
    1 0 0 [] rfl (by norm_num)
